import Mathlib

/-!
Shallow embedding of the `malloc-info` crate.

It covers the XML report schema of `src/info.rs` (serde-derived
deserialization of the `malloc_info` report), the `MemStream` wrapper of
`src/memstream.rs`, and the `malloc_info` pipeline of `src/lib.rs`, together
with theorems checking the specification's claims against these definitions.

The generic XML deserializer (the `quick_xml`/serde machinery) is not part of
this repository; its behaviour is embedded here as the decoder induced by the
serde attributes on the types in `src/info.rs`: `@name` fields read element
attributes, `$value` fields read child elements as enum variants keyed by tag
name, `Vec` fields collect repeated same-named child elements in document
order (a `Vec` field with zero occurrences is a missing field, as the
`parse_invalid` test in `src/info.rs` pins down), `Option` fields decode to
`none` when absent, unknown child elements and attributes are ignored, and
`#[serde(rename_all = "kebab-case")]` matches variant names against their
kebab-case spelling.
-/

namespace MallocInfo

/-- A structured-text (XML) element: tag name, attributes in document order,
child elements in document order.  Text nodes are not represented: the
report format carries data only in attributes and element structure. -/
inductive XmlElem where
  | mk (tag : String) (attrs : List (String × String)) (children : List XmlElem)

/-- Tag name of an element. -/
@[simp] def XmlElem.tag : XmlElem → String
  | .mk t _ _ => t

/-- Attribute list of an element, in document order. -/
@[simp] def XmlElem.attrs : XmlElem → List (String × String)
  | .mk _ a _ => a

/-- Child elements of an element, in document order. -/
@[simp] def XmlElem.children : XmlElem → List XmlElem
  | .mk _ _ c => c

/-- Decoding errors of the report schema, mirroring the shapes of
`quick_xml::DeError`: a required attribute missing from an element, a
required child element never occurring, an attribute value not parseable as
its declared numeric type, and a `$value` child element whose tag matches no
variant of the target enum. -/
inductive DeError where
  | missingAttribute (name : String)
  | missingField (name : String)
  | invalidValue (name : String)
  | unknownVariant (tag : String)
deriving DecidableEq

/-- Numeric attribute parsing: Rust `usize` via `str::parse` (an optional
leading `+`, then one or more decimal digits, value bounded by the 64-bit
`usize` range).  Works on the character list of the string. -/
def parseUsize (s : String) : Option Nat :=
  let cs :=
    match s.data with
    | '+' :: rest => rest
    | cs => cs
  if cs.isEmpty then none
  else if cs.all Char.isDigit then
    let n := cs.foldl (fun a c => a * 10 + (c.toNat - 48)) 0
    if n < 2 ^ 64 then some n else none
  else none

/-- First attribute with the given name, as serde's map access sees it. -/
def lookupAttr (e : XmlElem) (name : String) : Option String :=
  (e.attrs.find? (fun p => p.fst = name)).map Prod.snd

/-- A required string attribute (`#[serde(rename = "@name")]` on a `String`
field). -/
def reqAttr (e : XmlElem) (name : String) : Except DeError String :=
  match lookupAttr e name with
  | some v => .ok v
  | none => .error (.missingAttribute name)

/-- A required numeric attribute (`#[serde(rename = "@name")]` on a `usize`
field). -/
def reqNatAttr (e : XmlElem) (name : String) : Except DeError Nat :=
  match lookupAttr e name with
  | some v =>
    match parseUsize v with
    | some n => .ok n
    | none => .error (.invalidValue name)
  | none => .error (.missingAttribute name)

/-- Error-propagating map over a list, the effect of deserializing a
`Vec<T>` field element by element. -/
def mapE (f : α → Except DeError β) : List α → Except DeError (List β)
  | [] => .ok []
  | a :: as =>
    match f a with
    | .error er => .error er
    | .ok b =>
      match mapE f as with
      | .error er => .error er
      | .ok bs => .ok (b :: bs)

/-- Types of arena space (`AspaceType` in `src/info.rs`): known kebab-case
tags `total`, `mprotect`, `subheaps`, and the `#[serde(other)]` fallback. -/
inductive AspaceType where
  | Total
  | Mprotect
  | Subheaps
  | Other
deriving DecidableEq

/-- Arena space information (`Aspace` in `src/info.rs`). -/
structure Aspace where
  type : AspaceType
  size : Nat
deriving DecidableEq

/-- Types of system memory (`SystemType` in `src/info.rs`): known kebab-case
tags `current`, `max`, and the `#[serde(other)]` fallback. -/
inductive SystemType where
  | Current
  | Max
  | Other
deriving DecidableEq

/-- System memory information (`System` in `src/info.rs`). -/
structure System where
  type : SystemType
  size : Nat
deriving DecidableEq

/-- Types of total memory (`TotalType` in `src/info.rs`): known kebab-case
tags `fast`, `rest`, `mmap`, and the `#[serde(other)]` fallback. -/
inductive TotalType where
  | Fast
  | Rest
  | Mmap
  | Other
deriving DecidableEq

/-- Total memory information (`Total` in `src/info.rs`). -/
structure Total where
  type : TotalType
  count : Nat
  size : Nat
deriving DecidableEq

/-- Size information for an arena or the whole heap (`Size` in
`src/info.rs`): two variants, `Size` (element tag `size`) and `Unsorted`
(element tag `unsorted`), each carrying `from`/`to`/`total`/`count`
attributes.  `from` and `to` are Lean keywords, so those fields are spelled
`from_` and `to_`. -/
inductive Size where
  | Size (from_ to_ total count : Nat)
  | Unsorted (from_ to_ total count : Nat)
deriving DecidableEq

/-- Wrapper type for sizes (`Sizes` in `src/info.rs`): a `$value` field of
type `Option<Vec<Size>>`. -/
structure Sizes where
  sizes : Option (List Size)
deriving DecidableEq

/-- Arena-specific heap information (`Heap` in `src/info.rs`): arena number
`nr` and an optional `sizes` child. -/
structure Heap where
  nr : Nat
  sizes : Option Sizes
deriving DecidableEq

/-- Top-level type for all stats (`Malloc` in `src/info.rs`). -/
structure Malloc where
  version : String
  heaps : List Heap
  total : List Total
  system : List System
  aspace : List Aspace
deriving DecidableEq

/-- Decode an `AspaceType` from the `type` attribute text: exact kebab-case
match against the known variants, any other text is the `#[serde(other)]`
fallback `Other`. -/
def decodeAspaceType (s : String) : AspaceType :=
  if s = "total" then .Total
  else if s = "mprotect" then .Mprotect
  else if s = "subheaps" then .Subheaps
  else .Other

/-- Decode a `SystemType` from the `type` attribute text. -/
def decodeSystemType (s : String) : SystemType :=
  if s = "current" then .Current
  else if s = "max" then .Max
  else .Other

/-- Decode a `TotalType` from the `type` attribute text. -/
def decodeTotalType (s : String) : TotalType :=
  if s = "fast" then .Fast
  else if s = "rest" then .Rest
  else if s = "mmap" then .Mmap
  else .Other

/-- Decode an `aspace` element: required `@type` (never failing on unknown
text) and required numeric `@size`. -/
def decodeAspace (e : XmlElem) : Except DeError Aspace :=
  match reqAttr e "type" with
  | .error er => .error er
  | .ok t =>
    match reqNatAttr e "size" with
    | .error er => .error er
    | .ok sz => .ok ⟨decodeAspaceType t, sz⟩

/-- Decode a `system` element: required `@type` and required numeric
`@size`. -/
def decodeSystem (e : XmlElem) : Except DeError System :=
  match reqAttr e "type" with
  | .error er => .error er
  | .ok t =>
    match reqNatAttr e "size" with
    | .error er => .error er
    | .ok sz => .ok ⟨decodeSystemType t, sz⟩

/-- Decode a `total` element: required `@type`, numeric `@count`, numeric
`@size`. -/
def decodeTotal (e : XmlElem) : Except DeError Total :=
  match reqAttr e "type" with
  | .error er => .error er
  | .ok t =>
    match reqNatAttr e "count" with
    | .error er => .error er
    | .ok c =>
      match reqNatAttr e "size" with
      | .error er => .error er
      | .ok sz => .ok ⟨decodeTotalType t, c, sz⟩

/-- Decode a `Size` bucket element: the variant is chosen by the element's
own tag name (`size` or `unsorted`, the kebab-case variant names); both
variants require the same numeric attributes `@from`, `@to`, `@total`,
`@count`.  Any other tag is an unknown enum variant. -/
def decodeSizeFields (e : XmlElem) (mk : Nat → Nat → Nat → Nat → Size) :
    Except DeError Size :=
  match reqNatAttr e "from" with
  | .error er => .error er
  | .ok f =>
    match reqNatAttr e "to" with
    | .error er => .error er
    | .ok t =>
      match reqNatAttr e "total" with
      | .error er => .error er
      | .ok tot =>
        match reqNatAttr e "count" with
        | .error er => .error er
        | .ok c => .ok (mk f t tot c)

def decodeSize (e : XmlElem) : Except DeError Size :=
  if e.tag = "size" then
    decodeSizeFields e .Size
  else if e.tag = "unsorted" then
    decodeSizeFields e .Unsorted
  else
    .error (.unknownVariant e.tag)

/-- Decode a `sizes` element: the `$value` field `Option<Vec<Size>>` is
missing (hence `none`) when the element has no child elements, and otherwise
collects every child element through `decodeSize`. -/
def decodeSizes (e : XmlElem) : Except DeError Sizes :=
  match e.children with
  | [] => .ok ⟨none⟩
  | cs => (mapE decodeSize cs).map fun l => ⟨some l⟩

/-- Decode a `heap` element: required numeric `@nr`; the optional `sizes`
field decodes the first `sizes` child when present and is `none` otherwise;
all other children (the per-heap `total`/`system`/`aspace` elements) are
ignored, since `Heap` declares no field for them. -/
def decodeHeap (e : XmlElem) : Except DeError Heap :=
  match reqNatAttr e "nr" with
  | .error er => .error er
  | .ok nr =>
    match e.children.find? (fun c => c.tag = "sizes") with
    | none => .ok ⟨nr, none⟩
    | some se =>
      match decodeSizes se with
      | .error er => .error er
      | .ok s => .ok ⟨nr, some s⟩

/-- Decode the root `malloc` element into `Malloc`.

Modelled from the spec for the part the serde attributes alone do not fix:
§4.2 requires the root-level decode to "accept repeated sibling elements for
Heap, Total, System, and Aspace sections in any relative order and collect
each kind into its own ordered sequence", so each `Vec` field collects all
same-named root children in document order regardless of interleaving.  The
required `@version` attribute and the failure on a `Vec` field with zero
occurrences come from `src/info.rs` (field declarations and the
`parse_invalid` test). -/
def decodeMalloc (e : XmlElem) : Except DeError Malloc :=
  match reqAttr e "version" with
  | .error er => .error er
  | .ok version =>
    let heapElems := e.children.filter (fun c => c.tag = "heap")
    let totalElems := e.children.filter (fun c => c.tag = "total")
    let systemElems := e.children.filter (fun c => c.tag = "system")
    let aspaceElems := e.children.filter (fun c => c.tag = "aspace")
    if heapElems.isEmpty then
      .error (.missingField "heap")
    else if totalElems.isEmpty then
      .error (.missingField "total")
    else if systemElems.isEmpty then
      .error (.missingField "system")
    else if aspaceElems.isEmpty then
      .error (.missingField "aspace")
    else
      match mapE decodeHeap heapElems with
      | .error er => .error er
      | .ok heaps =>
        match mapE decodeTotal totalElems with
        | .error er => .error er
        | .ok total =>
          match mapE decodeSystem systemElems with
          | .error er => .error er
          | .ok system =>
            match mapE decodeAspace aspaceElems with
            | .error er => .error er
            | .ok aspace => .ok ⟨version, heaps, total, system, aspace⟩

/-- Errors dealing with `MemStream` (`Error` in `src/memstream.rs`):
`LibC` carries the platform `errno` code captured right after the failing
call, `MemStreamInvalid` is the null-buffer-after-flush condition. -/
inductive MemStreamError where
  | LibC (code : Int)
  | MemStreamInvalid
deriving DecidableEq

/-- The `MemStream` struct of `src/memstream.rs`: the `FILE` pointer `fp`,
the boxed buffer pointer cell `buf`, and the boxed buffer length cell
`buf_size`.  Pointers are modelled as addresses, with `0` the null
pointer. -/
structure MemStream where
  fp : Nat
  buf : Nat
  buf_size : Nat
deriving DecidableEq

/-- A call into libc, recorded so that release and ordering obligations are
observable. -/
inductive LibcCall where
  | openMemstream
  | fflush (fp : Nat)
  | fclose (fp : Nat)
  | free (ptr : Nat)
  | mallocInfo (fp : Nat)
  | decodeXml
deriving DecidableEq

/-- The behaviour of the platform primitives during one run of the
pipeline: what `open_memstream` returns, what the setup `fflush` returns and
what it leaves in the caller-owned buffer cell, the status of
`libc::malloc_info` and of the post-write `fflush`, the thread-local `errno`
observed right after each possibly-failing call, and the report the external
call wrote (as a parsed element, `none` when the bytes are not well-formed
structured text). -/
structure LibcWorld where
  openFp : Nat
  openFlushRet : Int
  bufAfterOpenFlush : Nat
  errnoOpen : Int
  errnoOpenFlush : Int
  mallocInfoRet : Int
  errnoMallocInfo : Int
  writeFlushRet : Int
  errnoWriteFlush : Int
  report : Option XmlElem

/-- `MemStream::new` of `src/memstream.rs`: both owned cells start at
null/zero; `open_memstream` binds `fp` (null return fails with the `errno`
code); the immediate `fflush` must return zero (otherwise the handle is
closed and the `errno` code reported); the buffer pointer must be non-null
after that flush (otherwise the handle is closed and `MemStreamInvalid`
reported); on success the stream holds the non-null handle, the materialized
buffer pointer, and length 0.  Returns the result together with the libc
calls performed. -/
def MemStream.new (w : LibcWorld) : Except MemStreamError MemStream × List LibcCall :=
  if w.openFp = 0 then
    (.error (.LibC w.errnoOpen), [.openMemstream])
  else if w.openFlushRet ≠ 0 then
    (.error (.LibC w.errnoOpenFlush), [.openMemstream, .fflush w.openFp, .fclose w.openFp])
  else if w.bufAfterOpenFlush = 0 then
    (.error .MemStreamInvalid, [.openMemstream, .fflush w.openFp, .fclose w.openFp])
  else
    (.ok ⟨w.openFp, w.bufAfterOpenFlush, 0⟩, [.openMemstream, .fflush w.openFp])

/-- `as_ref` of `impl AsRef<[u8]> for MemStream` in `src/memstream.rs`:
the slice of `buf_size` bytes starting at the buffer pointer, read from the
process memory `m`. -/
def MemStream.asRef (m : Nat → UInt8) (s : MemStream) : List UInt8 :=
  (List.range s.buf_size).map fun i => m (s.buf + i)

/-- `drop` of `impl Drop for MemStream` in `src/memstream.rs`: closes the
handle, frees the buffer, then nulls the handle and buffer pointer and
zeroes the length.  Returns the inert struct and the libc calls
performed. -/
def MemStream.drop (s : MemStream) : MemStream × List LibcCall :=
  (⟨0, 0, 0⟩, [.fclose s.fp, .free s.buf])

/-- The libc calls of a scoped destruction of `s` (the `Drop` impl run when
the stream leaves scope). -/
def dropCalls (s : MemStream) : List LibcCall :=
  (MemStream.drop s).2

/-- Parse-stage errors of the pipeline (`quick_xml::DeError` at the
`lib.rs` boundary): either the bytes are not well-formed structured text, or
the schema decode of the element tree failed. -/
inductive XmlError where
  | invalidXml
  | de (e : DeError)
deriving DecidableEq

/-- Internal error representation of `src/lib.rs` (`ErrorRepr`): a libc
`errno` failure, a memstream failure, or an XML parse failure. -/
inductive ErrorRepr where
  | LibC (code : Int)
  | Memstream (e : MemStreamError)
  | Xml (e : XmlError)
deriving DecidableEq

/-- Decode the flushed byte view, as `quick_xml::de::from_reader` at
`src/lib.rs:74` does: fail when the bytes are not well-formed structured
text, otherwise run the schema decode of the root element. -/
def decodeReport (report : Option XmlElem) : Except ErrorRepr Malloc :=
  match report with
  | none => .error (.Xml .invalidXml)
  | some doc =>
    match decodeMalloc doc with
    | .error de => .error (.Xml (.de de))
    | .ok m => .ok m

/-- The `malloc_info` pipeline of `src/lib.rs`: open the `MemStream` (a
failure propagates as `Memstream` before the external call runs); call
`libc::malloc_info` with the stream's handle (non-zero status fails with the
`errno` code, before any flush or decode); force an `fflush` (non-zero
status fails with the `errno` code, before decode); only then decode the
byte view.  The stream is released by scoped destruction on every path that
opened it.  Returns the result together with the libc calls performed. -/
def malloc_info (w : LibcWorld) : Except ErrorRepr Malloc × List LibcCall :=
  match MemStream.new w with
  | (.error e, tr) => (.error (.Memstream e), tr)
  | (.ok s, tr) =>
    if w.mallocInfoRet ≠ 0 then
      (.error (.LibC w.errnoMallocInfo), tr ++ [.mallocInfo s.fp] ++ dropCalls s)
    else if w.writeFlushRet ≠ 0 then
      (.error (.LibC w.errnoWriteFlush),
        tr ++ [.mallocInfo s.fp, .fflush s.fp] ++ dropCalls s)
    else
      (decodeReport w.report,
        tr ++ [.mallocInfo s.fp, .fflush s.fp, .decodeXml] ++ dropCalls s)

/-- Whether a trace contains a call to the external introspection
primitive. -/
def calledMallocInfo (tr : List LibcCall) : Bool :=
  tr.any fun c =>
    match c with
    | .mallocInfo _ => true
    | _ => false

/-- Whether a trace contains the decode step. -/
def ranDecode (tr : List LibcCall) : Bool :=
  tr.any fun c =>
    match c with
    | .decodeXml => true
    | _ => false

/-- The effective sequence of size-class records of a decoded heap: empty
when the `sizes` section is absent or carries no buckets. -/
def Heap.sizeClassRecords (h : Heap) : List Size :=
  match h.sizes with
  | none => []
  | some s => s.sizes.getD []

/-- An interleaved report: two `heap` elements (ids 0 and 1, the first also
carrying its own per-heap aggregate children) interleaved with two
root-level `total`, `system` and `aspace` elements in mixed relative
order. -/
def interleavedDoc : XmlElem :=
  .mk "malloc" [("version", "1")]
    [ .mk "heap" [("nr", "0")]
        [ .mk "sizes" [] []
        , .mk "total" [("type", "fast"), ("count", "1"), ("size", "2")] []
        , .mk "system" [("type", "current"), ("size", "3")] []
        , .mk "aspace" [("type", "total"), ("size", "4")] [] ]
    , .mk "total" [("type", "fast"), ("count", "0"), ("size", "10")] []
    , .mk "system" [("type", "current"), ("size", "11")] []
    , .mk "heap" [("nr", "1")] []
    , .mk "aspace" [("type", "total"), ("size", "12")] []
    , .mk "total" [("type", "rest"), ("count", "0"), ("size", "13")] []
    , .mk "system" [("type", "max"), ("size", "14")] []
    , .mk "aspace" [("type", "mprotect"), ("size", "15")] [] ]

/-- C2: a `heap` whose `sizes` section is present but has zero bucket
children decodes to a present section whose sequence of size-class records
is empty, while a `heap` with no `sizes` element at all decodes to an absent
section; the two decoded values are distinct. -/
theorem heap_empty_sizes_section_vs_absent :
    decodeHeap (.mk "heap" [("nr", "0")] [.mk "sizes" [] []]) =
      .ok ⟨0, some ⟨none⟩⟩ ∧
    Heap.sizeClassRecords ⟨0, some ⟨none⟩⟩ = [] ∧
    decodeHeap (.mk "heap" [("nr", "0")] []) = .ok ⟨0, none⟩ ∧
    (Heap.mk 0 (some ⟨none⟩)) ≠ (Heap.mk 0 none) := by
  refine ⟨rfl, rfl, rfl, by decide⟩

/-- C4: decoding a report whose root interleaves two `heap` elements (ids 0
and 1) with root-level `total`/`system`/`aspace` elements collects each kind
into its own sequence in document order — `heaps[0].nr = 0`,
`heaps[1].nr = 1`, and the root-level aggregate sequences hold exactly the
two root-level elements of each kind (sizes 10–15), never the aggregates
nested inside the first heap (sizes 2–4). -/
theorem interleaved_root_collection_order_and_scope :
    decodeMalloc interleavedDoc =
      .ok ⟨"1",
        [⟨0, some ⟨none⟩⟩, ⟨1, none⟩],
        [⟨.Fast, 0, 10⟩, ⟨.Rest, 0, 13⟩],
        [⟨.Current, 11⟩, ⟨.Max, 14⟩],
        [⟨.Total, 12⟩, ⟨.Mprotect, 15⟩]⟩ := by rfl

/-- C7: a document consisting of an empty root element with no version
attribute and no children fails to decode with a Parse error (the missing
`version` attribute); it does not succeed with default-valued fields. -/
theorem empty_root_element_fails :
    decodeMalloc (.mk "malloc" [] []) = .error (.missingAttribute "version") := by
  rfl

/-- C1: an aggregate element whose `type` attribute text is not one of its
enumeration's known kebab-case values decodes successfully to the `Other`
fallback variant — for Total (known: `fast`, `rest`, `mmap`), System
(known: `current`, `max`) and Aspace (known: `total`, `mprotect`,
`subheaps`) alike — and never to a Parse error on account of the tag
text. -/
theorem unknown_aggregate_tag_decodes_to_Other
    (s1 s2 s3 sz : String) (n : Nat) (hsz : parseUsize sz = some n)
    (h1a : s1 ≠ "fast") (h1b : s1 ≠ "rest") (h1c : s1 ≠ "mmap")
    (h2a : s2 ≠ "current") (h2b : s2 ≠ "max")
    (h3a : s3 ≠ "total") (h3b : s3 ≠ "mprotect") (h3c : s3 ≠ "subheaps") :
    decodeTotal (.mk "total" [("type", s1), ("count", sz), ("size", sz)] []) =
      .ok ⟨.Other, n, n⟩ ∧
    decodeSystem (.mk "system" [("type", s2), ("size", sz)] []) = .ok ⟨.Other, n⟩ ∧
    decodeAspace (.mk "aspace" [("type", s3), ("size", sz)] []) = .ok ⟨.Other, n⟩ := by
  refine ⟨?_, ?_, ?_⟩ <;>
    simp [decodeTotal, decodeSystem, decodeAspace, reqAttr, reqNatAttr, lookupAttr,
      List.find?, hsz, decodeTotalType, decodeSystemType, decodeAspaceType,
      h1a, h1b, h1c, h2a, h2b, h3a, h3b, h3c]

/-- Witness for C1 at the unknown tag `mmapped`, size text `7`. -/
theorem unknown_aggregate_tag_decodes_to_Other_witness :
    decodeTotal (.mk "total" [("type", "mmapped"), ("count", "7"), ("size", "7")] []) =
      .ok ⟨.Other, 7, 7⟩ ∧
    decodeSystem (.mk "system" [("type", "mmapped"), ("size", "7")] []) = .ok ⟨.Other, 7⟩ ∧
    decodeAspace (.mk "aspace" [("type", "mmapped"), ("size", "7")] []) = .ok ⟨.Other, 7⟩ :=
  unknown_aggregate_tag_decodes_to_Other "mmapped" "mmapped" "mmapped" "7" 7
    (by decide) (by decide) (by decide) (by decide) (by decide) (by decide)
    (by decide) (by decide) (by decide)

/-- C3: a bucket element decodes to the variant chosen by its own tag name —
tag `size` to `Size.Size` (the spec's `Sorted`), tag `unsorted` to
`Size.Unsorted` — and both variants decode the identical attribute set
`from`/`to`/`total`/`count`. -/
theorem size_class_variant_by_tag_name
    (a : List (String × String)) (f t tot c : Nat)
    (hf : reqNatAttr (.mk "size" a []) "from" = .ok f)
    (ht : reqNatAttr (.mk "size" a []) "to" = .ok t)
    (htot : reqNatAttr (.mk "size" a []) "total" = .ok tot)
    (hc : reqNatAttr (.mk "size" a []) "count" = .ok c) :
    decodeSize (.mk "size" a []) = .ok (.Size f t tot c) ∧
    decodeSize (.mk "unsorted" a []) = .ok (.Unsorted f t tot c) := by
  have hf' : reqNatAttr (.mk "unsorted" a []) "from" = .ok f := hf
  have ht' : reqNatAttr (.mk "unsorted" a []) "to" = .ok t := ht
  have htot' : reqNatAttr (.mk "unsorted" a []) "total" = .ok tot := htot
  have hc' : reqNatAttr (.mk "unsorted" a []) "count" = .ok c := hc
  constructor <;>
    simp [decodeSize, decodeSizeFields, hf, ht, htot, hc, hf', ht', htot', hc']

/-- Witness for C3 at attributes `from="1" to="2" total="3" count="4"`. -/
theorem size_class_variant_by_tag_name_witness :
    decodeSize (.mk "size" [("from", "1"), ("to", "2"), ("total", "3"), ("count", "4")] []) =
      .ok (.Size 1 2 3 4) ∧
    decodeSize (.mk "unsorted" [("from", "1"), ("to", "2"), ("total", "3"), ("count", "4")] []) =
      .ok (.Unsorted 1 2 3 4) :=
  size_class_variant_by_tag_name
    [("from", "1"), ("to", "2"), ("total", "3"), ("count", "4")] 1 2 3 4 rfl rfl rfl rfl

/-- C10: the `Other` fallback variants carry no payload, so two aggregate
elements with different unrecognized `type` strings and equal numeric
attributes decode to equal values — the unrecognized text is discarded and
unrecoverable from the decoded report. -/
theorem other_variant_discards_unknown_text
    (s1 t1 s2 t2 s3 t3 sz : String) (n : Nat) (hsz : parseUsize sz = some n)
    (hne1 : s1 ≠ t1) (hne2 : s2 ≠ t2) (hne3 : s3 ≠ t3)
    (h1a : s1 ≠ "fast") (h1b : s1 ≠ "rest") (h1c : s1 ≠ "mmap")
    (h1d : t1 ≠ "fast") (h1e : t1 ≠ "rest") (h1f : t1 ≠ "mmap")
    (h2a : s2 ≠ "current") (h2b : s2 ≠ "max")
    (h2c : t2 ≠ "current") (h2d : t2 ≠ "max")
    (h3a : s3 ≠ "total") (h3b : s3 ≠ "mprotect") (h3c : s3 ≠ "subheaps")
    (h3d : t3 ≠ "total") (h3e : t3 ≠ "mprotect") (h3f : t3 ≠ "subheaps") :
    decodeTotal (.mk "total" [("type", s1), ("count", sz), ("size", sz)] []) =
      decodeTotal (.mk "total" [("type", t1), ("count", sz), ("size", sz)] []) ∧
    decodeSystem (.mk "system" [("type", s2), ("size", sz)] []) =
      decodeSystem (.mk "system" [("type", t2), ("size", sz)] []) ∧
    decodeAspace (.mk "aspace" [("type", s3), ("size", sz)] []) =
      decodeAspace (.mk "aspace" [("type", t3), ("size", sz)] []) := by
  refine ⟨?_, ?_, ?_⟩ <;>
    simp [decodeTotal, decodeSystem, decodeAspace, reqAttr, reqNatAttr, lookupAttr,
      List.find?, hsz, decodeTotalType, decodeSystemType, decodeAspaceType,
      h1a, h1b, h1c, h1d, h1e, h1f, h2a, h2b, h2c, h2d, h3a, h3b, h3c, h3d, h3e, h3f]

/-- Witness for C10 at the distinct unknown tags `mmapped` and `bogus`. -/
theorem other_variant_discards_unknown_text_witness :
    decodeTotal (.mk "total" [("type", "mmapped"), ("count", "7"), ("size", "7")] []) =
      decodeTotal (.mk "total" [("type", "bogus"), ("count", "7"), ("size", "7")] []) ∧
    decodeSystem (.mk "system" [("type", "mmapped"), ("size", "7")] []) =
      decodeSystem (.mk "system" [("type", "bogus"), ("size", "7")] []) ∧
    decodeAspace (.mk "aspace" [("type", "mmapped"), ("size", "7")] []) =
      decodeAspace (.mk "aspace" [("type", "bogus"), ("size", "7")] []) :=
  other_variant_discards_unknown_text "mmapped" "bogus" "mmapped" "bogus" "mmapped" "bogus"
    "7" 7 (by decide) (by decide) (by decide) (by decide) (by decide) (by decide)
    (by decide) (by decide) (by decide) (by decide) (by decide) (by decide) (by decide)
    (by decide) (by decide) (by decide) (by decide) (by decide) (by decide) (by decide)

/-- C5: `MemStream::new` fails with a `LibC` error carrying the platform
error code when `open_memstream` returns a null handle; fails, closing the
handle, with a `LibC` error when the initial `fflush` returns non-zero;
fails, closing the handle, with the distinct `MemStreamInvalid` error when
the buffer pointer is still null after a successful flush; and otherwise
returns a stream whose handle and buffer pointer are non-null. -/
theorem memstream_new_cases (w : LibcWorld) :
    (w.openFp = 0 →
      MemStream.new w = (.error (.LibC w.errnoOpen), [.openMemstream])) ∧
    (w.openFp ≠ 0 → w.openFlushRet ≠ 0 →
      MemStream.new w =
        (.error (.LibC w.errnoOpenFlush),
          [.openMemstream, .fflush w.openFp, .fclose w.openFp])) ∧
    (w.openFp ≠ 0 → w.openFlushRet = 0 → w.bufAfterOpenFlush = 0 →
      MemStream.new w =
        (.error .MemStreamInvalid,
          [.openMemstream, .fflush w.openFp, .fclose w.openFp])) ∧
    (w.openFp ≠ 0 → w.openFlushRet = 0 → w.bufAfterOpenFlush ≠ 0 →
      MemStream.new w =
        (.ok ⟨w.openFp, w.bufAfterOpenFlush, 0⟩, [.openMemstream, .fflush w.openFp]) ∧
      (MemStream.mk w.openFp w.bufAfterOpenFlush 0).fp ≠ 0 ∧
      (MemStream.mk w.openFp w.bufAfterOpenFlush 0).buf ≠ 0) := by
  refine ⟨fun h => ?_, fun h1 h2 => ?_, fun h1 h2 h3 => ?_, fun h1 h2 h3 => ?_⟩ <;>
    simp [MemStream.new, *]

/-- Witness for C5: the four branches at concrete worlds (null handle with
errno 12; handle 7 with failing setup flush and errno 9; handle 7 with
successful flush but null buffer; handle 7 with buffer 42). -/
theorem memstream_new_cases_witness :
    MemStream.new ⟨0, 0, 0, 12, 0, 0, 0, 0, 0, none⟩ =
      (.error (.LibC 12), [.openMemstream]) ∧
    MemStream.new ⟨7, 1, 0, 0, 9, 0, 0, 0, 0, none⟩ =
      (.error (.LibC 9), [.openMemstream, .fflush 7, .fclose 7]) ∧
    MemStream.new ⟨7, 0, 0, 0, 0, 0, 0, 0, 0, none⟩ =
      (.error .MemStreamInvalid, [.openMemstream, .fflush 7, .fclose 7]) ∧
    MemStream.new ⟨7, 0, 42, 0, 0, 0, 0, 0, 0, none⟩ =
      (.ok ⟨7, 42, 0⟩, [.openMemstream, .fflush 7]) :=
  ⟨(memstream_new_cases _).1 rfl,
   (memstream_new_cases _).2.1 (by decide) (by decide),
   (memstream_new_cases _).2.2.1 (by decide) rfl rfl,
   ((memstream_new_cases _).2.2.2 (by decide) rfl (by decide)).1⟩

/-- C8: after destruction of a `MemStream` the handle and buffer pointer
are null and the length is zero, the byte view is empty for any process
memory, and repeating the destruction-equivalent operation on the
already-destroyed stream leaves the same null/zero/empty state. -/
theorem memstream_drop_inert_and_idempotent (s : MemStream) (m : Nat → UInt8) :
    (MemStream.drop s).1.fp = 0 ∧ (MemStream.drop s).1.buf = 0 ∧
    (MemStream.drop s).1.buf_size = 0 ∧
    MemStream.asRef m (MemStream.drop s).1 = [] ∧
    (MemStream.drop (MemStream.drop s).1).1 = (MemStream.drop s).1 :=
  ⟨rfl, rfl, rfl, rfl, rfl⟩

/-- The trace of `MemStream::new` holds only stream setup calls: it never
contains the external introspection call nor the decode step. -/
theorem new_trace_only_stream_calls (w : LibcWorld) (r : Except MemStreamError MemStream)
    (tr : List LibcCall) (h : MemStream.new w = (r, tr)) :
    calledMallocInfo tr = false ∧ ranDecode tr = false := by
  unfold MemStream.new at h
  split_ifs at h <;>
    (rw [Prod.mk.injEq] at h; obtain ⟨-, h2⟩ := h; subst h2;
      simp [calledMallocInfo, ranDecode])

/-- C6: the `malloc_info` pipeline is fail-fast in order: a failed stream
open propagates before the external introspection call ever runs; a
non-zero introspection status yields a `LibC` error from the platform's
last-error state with no decode step; a failed post-write flush yields a
`LibC` error with no decode step; and only when open, write and flush all
succeed does the decode step run, yielding either a complete `Malloc` or
exactly one typed error with no partial value. -/
theorem malloc_info_fail_fast (w : LibcWorld) :
    (∀ e tr, MemStream.new w = (.error e, tr) →
      malloc_info w = (.error (.Memstream e), tr) ∧
      calledMallocInfo tr = false ∧ ranDecode tr = false) ∧
    (∀ s tr, MemStream.new w = (.ok s, tr) → w.mallocInfoRet ≠ 0 →
      malloc_info w =
        (.error (.LibC w.errnoMallocInfo), tr ++ [.mallocInfo s.fp] ++ dropCalls s) ∧
      ranDecode (tr ++ [.mallocInfo s.fp] ++ dropCalls s) = false) ∧
    (∀ s tr, MemStream.new w = (.ok s, tr) → w.mallocInfoRet = 0 → w.writeFlushRet ≠ 0 →
      malloc_info w =
        (.error (.LibC w.errnoWriteFlush),
          tr ++ [.mallocInfo s.fp, .fflush s.fp] ++ dropCalls s) ∧
      ranDecode (tr ++ [.mallocInfo s.fp, .fflush s.fp] ++ dropCalls s) = false) ∧
    (∀ s tr, MemStream.new w = (.ok s, tr) → w.mallocInfoRet = 0 → w.writeFlushRet = 0 →
      malloc_info w =
        (decodeReport w.report,
          tr ++ [.mallocInfo s.fp, .fflush s.fp, .decodeXml] ++ dropCalls s) ∧
      ranDecode (tr ++ [.mallocInfo s.fp, .fflush s.fp, .decodeXml] ++ dropCalls s) = true ∧
      ((∃ m, decodeReport w.report = .ok m) ∨ (∃ er, decodeReport w.report = .error er))) := by
  refine ⟨?_, ?_, ?_, ?_⟩
  · intro e tr h
    have htr := new_trace_only_stream_calls w _ _ h
    unfold malloc_info
    rw [h]
    exact ⟨rfl, htr.1, htr.2⟩
  · intro s tr h hm
    have htr := new_trace_only_stream_calls w _ _ h
    unfold malloc_info
    rw [h]
    refine ⟨by simp [hm], ?_⟩
    simp [ranDecode, List.any_append, dropCalls, MemStream.drop] at htr ⊢
    exact htr.2
  · intro s tr h hm hf
    have htr := new_trace_only_stream_calls w _ _ h
    unfold malloc_info
    rw [h]
    refine ⟨by simp [hm, hf], ?_⟩
    simp [ranDecode, List.any_append, dropCalls, MemStream.drop] at htr ⊢
    exact htr.2
  · intro s tr h hm hf
    unfold malloc_info
    rw [h]
    refine ⟨by simp [hm, hf], ?_, ?_⟩
    · simp [ranDecode, List.any_append]
    · cases hd : decodeReport w.report with
      | ok m => exact Or.inl ⟨m, rfl⟩
      | error er => exact Or.inr ⟨er, rfl⟩

/-- Witness for C6: the four pipeline stages at concrete worlds — open
failure with errno 12, introspection failure with errno 33, post-write
flush failure with errno 44, and a full success path on an unparseable
report. -/
theorem malloc_info_fail_fast_witness :
    malloc_info ⟨0, 0, 0, 12, 0, 0, 0, 0, 0, none⟩ =
      (.error (.Memstream (.LibC 12)), [.openMemstream]) ∧
    malloc_info ⟨7, 0, 42, 0, 0, 1, 33, 0, 0, none⟩ =
      (.error (.LibC 33),
        [.openMemstream, .fflush 7] ++ [.mallocInfo 7] ++ dropCalls ⟨7, 42, 0⟩) ∧
    malloc_info ⟨7, 0, 42, 0, 0, 0, 0, 1, 44, none⟩ =
      (.error (.LibC 44),
        [.openMemstream, .fflush 7] ++ [.mallocInfo 7, .fflush 7] ++ dropCalls ⟨7, 42, 0⟩) ∧
    malloc_info ⟨7, 0, 42, 0, 0, 0, 0, 0, 0, none⟩ =
      (decodeReport none,
        [.openMemstream, .fflush 7] ++ [.mallocInfo 7, .fflush 7, .decodeXml] ++
          dropCalls ⟨7, 42, 0⟩) :=
  ⟨((malloc_info_fail_fast ⟨0, 0, 0, 12, 0, 0, 0, 0, 0, none⟩).1
      (.LibC 12) [.openMemstream] rfl).1,
   ((malloc_info_fail_fast ⟨7, 0, 42, 0, 0, 1, 33, 0, 0, none⟩).2.1
      ⟨7, 42, 0⟩ [.openMemstream, .fflush 7] rfl (by decide)).1,
   ((malloc_info_fail_fast ⟨7, 0, 42, 0, 0, 0, 0, 1, 44, none⟩).2.2.1
      ⟨7, 42, 0⟩ [.openMemstream, .fflush 7] rfl rfl (by decide)).1,
   ((malloc_info_fail_fast ⟨7, 0, 42, 0, 0, 0, 0, 0, 0, none⟩).2.2.2
      ⟨7, 42, 0⟩ [.openMemstream, .fflush 7] rfl rfl rfl).1⟩

/-- A well-formed report whose two `heap` elements carry the same arena
identifier attribute `nr="0"`. -/
def dupNrDoc : XmlElem :=
  .mk "malloc" [("version", "1")]
    [ .mk "heap" [("nr", "0")] []
    , .mk "heap" [("nr", "0")] []
    , .mk "total" [("type", "fast"), ("count", "0"), ("size", "0")] []
    , .mk "system" [("type", "current"), ("size", "0")] []
    , .mk "aspace" [("type", "total"), ("size", "0")] [] ]

/-- C9 counterexample: a report with two `heap` elements both carrying
`nr="0"` decodes successfully, and the arena identifiers of the decoded
Report Root are not pairwise distinct — decoding does not enforce the
claimed uniqueness invariant. -/
theorem duplicate_arena_ids_decode_ok :
    decodeMalloc dupNrDoc =
      .ok ⟨"1", [⟨0, none⟩, ⟨0, none⟩], [⟨.Fast, 0, 0⟩], [⟨.Current, 0⟩], [⟨.Total, 0⟩]⟩ ∧
    ¬ ((Malloc.heaps
          ⟨"1", [⟨0, none⟩, ⟨0, none⟩], [⟨.Fast, 0, 0⟩], [⟨.Current, 0⟩],
            [⟨.Total, 0⟩]⟩).map Heap.nr).Nodup :=
  ⟨rfl, by decide⟩

/-- The `nr` attributes of a list of elements, each parsed as `usize`, in
document order. -/
def heapNrAttrs : List XmlElem → Option (List Nat)
  | [] => some []
  | c :: cs =>
    match lookupAttr c "nr" with
    | none => none
    | some v =>
      match parseUsize v with
      | none => none
      | some n =>
        match heapNrAttrs cs with
        | none => none
        | some ns => some (n :: ns)

/-- A successfully decoded heap's `nr` is exactly the parsed `nr` attribute
of its element. -/
theorem decodeHeap_nr_attr (c : XmlElem) (h : Heap) (hc : decodeHeap c = .ok h) :
    ∃ v, lookupAttr c "nr" = some v ∧ parseUsize v = some h.nr := by
  unfold decodeHeap at hc
  cases hr : reqNatAttr c "nr" with
  | error er => simp only [hr] at hc; exact Except.noConfusion hc
  | ok nr =>
    simp only [hr] at hc
    have hattr : ∃ v, lookupAttr c "nr" = some v ∧ parseUsize v = some nr := by
      unfold reqNatAttr at hr
      cases hv : lookupAttr c "nr" with
      | none => simp only [hv] at hr; exact Except.noConfusion hr
      | some v =>
        simp only [hv] at hr
        cases hn : parseUsize v with
        | none => simp only [hn] at hr; exact Except.noConfusion hr
        | some n =>
          simp only [hn] at hr
          injection hr with hr
          subst hr
          exact ⟨v, rfl, hn⟩
    obtain ⟨v, hv, hn⟩ := hattr
    cases hf : c.children.find? (fun x => x.tag = "sizes") with
    | none =>
      simp only [hf] at hc
      cases hc
      exact ⟨v, hv, hn⟩
    | some se =>
      simp only [hf] at hc
      cases hs : decodeSizes se with
      | error er => simp only [hs] at hc; exact Except.noConfusion hc
      | ok sz =>
        simp only [hs] at hc
        cases hc
        exact ⟨v, hv, hn⟩

/-- Mapping `decodeHeap` over a list of elements succeeds exactly with the
parsed `nr` attributes, in order. -/
theorem mapE_decodeHeap_nrs :
    ∀ (l : List XmlElem) (hs : List Heap), mapE decodeHeap l = .ok hs →
      heapNrAttrs l = some (hs.map Heap.nr)
  | [], hs, h => by
    unfold mapE at h
    cases h
    rfl
  | c :: cs, hs, h => by
    unfold mapE at h
    cases hc : decodeHeap c with
    | error er => rw [hc] at h; exact absurd h (by simp)
    | ok hd =>
      rw [hc] at h
      cases hrest : mapE decodeHeap cs with
      | error er => rw [hrest] at h; exact absurd h (by simp)
      | ok tl =>
        rw [hrest] at h
        cases h
        obtain ⟨v, hv, hn⟩ := decodeHeap_nr_attr c hd hc
        have ih := mapE_decodeHeap_nrs cs tl hrest
        simp [heapNrAttrs, hv, hn, ih]

/-- C9 amended: decoding preserves the arena identifiers of the report
verbatim — the decoded `heaps` carry exactly the parsed `nr` attributes of
the `heap` elements in document order, with no uniqueness check; pairwise
distinctness is an expectation on the introspection call's output, not a
property enforced by decoding. -/
theorem decode_preserves_arena_ids (e : XmlElem) (m : Malloc)
    (h : decodeMalloc e = .ok m) :
    heapNrAttrs (e.children.filter (fun c => c.tag = "heap")) =
      some (m.heaps.map Heap.nr) := by
  unfold decodeMalloc at h
  cases hv : reqAttr e "version" with
  | error er => simp only [hv] at h; exact Except.noConfusion h
  | ok version =>
    simp only [hv] at h
    split_ifs at h
    cases hh : mapE decodeHeap (e.children.filter (fun c => c.tag = "heap")) with
    | error er => simp only [hh] at h; exact Except.noConfusion h
    | ok heaps =>
      simp only [hh] at h
      cases ht : mapE decodeTotal (e.children.filter (fun c => c.tag = "total")) with
      | error er => simp only [ht] at h; exact Except.noConfusion h
      | ok total =>
        simp only [ht] at h
        cases hsy : mapE decodeSystem (e.children.filter (fun c => c.tag = "system")) with
        | error er => simp only [hsy] at h; exact Except.noConfusion h
        | ok system =>
          simp only [hsy] at h
          cases ha : mapE decodeAspace (e.children.filter (fun c => c.tag = "aspace")) with
          | error er => simp only [ha] at h; exact Except.noConfusion h
          | ok aspace =>
            simp only [ha] at h
            cases h
            exact mapE_decodeHeap_nrs _ _ hh

/-- Witness for C9's amended theorem at the duplicate-identifier report:
the preserved identifier list is `[0, 0]`. -/
theorem decode_preserves_arena_ids_witness :
    heapNrAttrs (dupNrDoc.children.filter (fun c => c.tag = "heap")) = some [0, 0] :=
  decode_preserves_arena_ids dupNrDoc
    ⟨"1", [⟨0, none⟩, ⟨0, none⟩], [⟨.Fast, 0, 0⟩], [⟨.Current, 0⟩], [⟨.Total, 0⟩]⟩ rfl

end MallocInfo
